import Mathlib

/-!
Shallow embedding of the cookie consent system of src/script.js (the
LGPD/GDPR consent IIFE): JS values as produced by JSON.parse, the dual
cookie/localStorage persistence adapter (CookieUtils), the consent store
(getConsent, hasConsent, saveConsent, isCategoryAllowed), the broadcaster
(loadScripts) and the save handler with its single delayed retry
(handleSave), plus the reset operation of the public API.

State is passed explicitly: a Store holds the cell for the single key
cookie_consent in each of the two physical stores, and an Env fixes which
physical writes fail (in the source every failing write throws, is caught,
logged, and leaves the store unchanged). JSON serialization is abstracted:
a cell holds either nothing, an unparseable entry (JSON.parse throws), or
the parsed JSON value. Timestamps (new Date().toISOString()) are passed in
as explicit string parameters.
-/

namespace CookieConsent

/-- JS primitive values as far as the consent code distinguishes them:
the possible results of JSON.parse other than objects (null, booleans,
numbers, strings). -/
inductive JSVal where
  | vNull
  | vBool (b : Bool)
  | vNum (n : Int)
  | vStr (s : String)
deriving DecidableEq

/-- JS truthiness of a primitive value: null is falsy, a boolean is itself,
a number is truthy iff nonzero, a string is truthy iff nonempty. -/
def JSVal.truthy : JSVal → Bool
  | .vNull => false
  | .vBool b => b
  | .vNum n => n != 0
  | .vStr s => s != ""

/-- JS strict equality of a primitive value with the boolean true,
as in the expression consent[category] === true. -/
def JSVal.strictEqTrue : JSVal → Bool
  | .vBool b => b
  | _ => false

/-- JS strict equality of a primitive value with a string literal,
as in the expression stored.version === CONSENT_VERSION. -/
def JSVal.strictEqStr (v : JSVal) (s : String) : Bool :=
  match v with
  | .vStr t => t == s
  | _ => false

/-- A consent record object as parsed from JSON: each of the five fields
of the persisted structure may be absent (JS undefined on access). -/
structure StoredRecord where
  version : Option JSVal
  timestamp : Option JSVal
  necessary : Option JSVal
  analytics : Option JSVal
  marketing : Option JSVal
deriving DecidableEq

/-- A successfully parsed JSON value: either an object (a record) or a
primitive (number, string, boolean, null). -/
inductive JsonVal where
  | prim (v : JSVal)
  | obj (r : StoredRecord)
deriving DecidableEq

/-- One storage cell for the key cookie_consent: absent, holding an entry
that JSON.parse rejects, or holding a parseable value. -/
inductive Cell where
  | empty
  | malformed
  | stored (v : JsonVal)
deriving DecidableEq

/-- Parse of a cell content: a malformed entry behaves as absence (the
parse exception is caught and logged in the source). -/
def Cell.parse : Cell → Option JsonVal
  | .stored v => some v
  | _ => none

/-- The two physical stores of the adapter, each viewed at the single key
cookie_consent: the primary document.cookie entry and the secondary
localStorage entry. -/
structure Store where
  cookie : Cell
  localStore : Cell
deriving DecidableEq

/-- Environment of physical storage faults: a true flag makes the
corresponding write or removal throw (the source catches each one). -/
structure Env where
  cookieWriteFails : Bool
  localWriteFails : Bool
  cookieRemoveFails : Bool
  localRemoveFails : Bool
deriving DecidableEq

/-- The fault-free environment. -/
def e0 : Env := ⟨false, false, false, false⟩

/-- Store with no entry in either physical store. -/
def emptyStore : Store := ⟨Cell.empty, Cell.empty⟩

/-- Configured schema version CONSENT_VERSION of src/script.js. -/
def CONSENT_VERSION : String := "1.0"

/-- Configured expiry window CONSENT_EXPIRY_DAYS of src/script.js. -/
def CONSENT_EXPIRY_DAYS : Nat := 365

/-- CookieUtils.set: write the serialized value to the cookie (caught on
throw, logged) and then to localStorage (caught on throw, logged); a
failing write leaves that store unchanged and is never propagated. -/
def CookieUtils.set (e : Env) (v : JsonVal) (s : Store) : Store :=
  let s1 := if e.cookieWriteFails then s else { s with cookie := Cell.stored v }
  if e.localWriteFails then s1 else { s1 with localStore := Cell.stored v }

/-- CookieUtils.get: read the cookie entry first; on a successful parse,
mirror the parsed value back into localStorage (the setItem call is inside
a try with an empty catch) and return it; on absence or parse failure of
the cookie entry, fall back to localStorage, where a malformed entry again
reads as absence. Returns the value read together with the store after the
mirroring side effect. -/
def CookieUtils.get (e : Env) (s : Store) : Option JsonVal × Store :=
  match s.cookie with
  | Cell.stored v =>
      (some v, if e.localWriteFails then s else { s with localStore := Cell.stored v })
  | _ =>
      match s.localStore with
      | Cell.stored v => (some v, s)
      | _ => (none, s)

/-- CookieUtils.remove: expire the cookie entry and remove the
localStorage entry, each inside a try with an empty catch. -/
def CookieUtils.remove (e : Env) (s : Store) : Store :=
  let s1 := if e.cookieRemoveFails then s else { s with cookie := Cell.empty }
  if e.localRemoveFails then s1 else { s1 with localStore := Cell.empty }

/-- Version test of getConsent: stored.version === CONSENT_VERSION or
!stored.version, where an absent field reads as undefined (falsy). -/
def versionAccepted : Option JSVal → Bool
  | none => true
  | some v => v.strictEqStr CONSENT_VERSION || !v.truthy

/-- Validation applied by getConsent to a parsed object: the version test
plus presence of the three category fields (typeof f !== undefined). -/
def recordAccepted (r : StoredRecord) : Bool :=
  versionAccepted r.version && r.necessary.isSome && r.analytics.isSome
    && r.marketing.isSome

/-- getConsent: read through the adapter; return the parsed object when it
is a truthy object passing the version and field-presence checks, and null
otherwise. The read carries the repair-on-read store update along. -/
def getConsent (e : Env) (s : Store) : Option StoredRecord × Store :=
  let g := CookieUtils.get e s
  match g.1 with
  | some (JsonVal.obj r) => (if recordAccepted r then some r else none, g.2)
  | _ => (none, g.2)

/-- hasConsent: the consent is non-null and its timestamp field is truthy
(the source returns the expression consent !== null && typeof consent ===
an object && consent.timestamp, used only for its truthiness). -/
def hasConsent (e : Env) (s : Store) : Bool × Store :=
  let g := getConsent e s
  (match g.1 with
   | none => false
   | some r => r.timestamp.elim false JSVal.truthy, g.2)

/-- Field access consent[category] for a category name given as a string:
an unknown name reads as undefined. -/
def StoredRecord.getField (r : StoredRecord) (category : String) : Option JSVal :=
  if category == "version" then r.version
  else if category == "timestamp" then r.timestamp
  else if category == "necessary" then r.necessary
  else if category == "analytics" then r.analytics
  else if category == "marketing" then r.marketing
  else none

/-- isCategoryAllowed: false when getConsent is null; otherwise true for
the category necessary, and consent[category] === true for the rest. -/
def isCategoryAllowed (e : Env) (s : Store) (category : String) : Bool × Store :=
  let g := getConsent e s
  (match g.1 with
   | none => false
   | some r =>
       if category == "necessary" then true
       else (r.getField category).elim false JSVal.strictEqTrue, g.2)

/-- Input of saveConsent: the analytics and marketing properties of the
argument object, each possibly absent. -/
structure ConsentInput where
  analytics : Option JSVal
  marketing : Option JSVal
deriving DecidableEq

/-- JS defaulting expression v || false: the value itself when truthy and
the boolean false otherwise (also when the property is absent). -/
def orFalse : Option JSVal → JSVal
  | none => JSVal.vBool false
  | some v => if v.truthy then v else JSVal.vBool false

/-- The record constructed by saveConsent: current version, the given
timestamp, necessary always true, and the given category values after
the v || false defaulting (no boolean coercion). -/
def mkConsentData (ts : String) (c : ConsentInput) : StoredRecord :=
  { version := some (JSVal.vStr CONSENT_VERSION)
    timestamp := some (JSVal.vStr ts)
    necessary := some (JSVal.vBool true)
    analytics := some (orFalse c.analytics)
    marketing := some (orFalse c.marketing) }

/-- saveConsent: build the record, write it through the adapter, then
re-read through the adapter to verify; the third component records whether
the verification warning (!saved || saved.version !== CONSENT_VERSION) was
logged. The constructed record is returned to the caller in every case. -/
def saveConsent (e : Env) (ts : String) (c : ConsentInput) (s : Store) :
    StoredRecord × Store × Bool :=
  let data := mkConsentData ts c
  let s1 := CookieUtils.set e (JsonVal.obj data) s
  let g := CookieUtils.get e s1
  let warned :=
    match g.1 with
    | some (JsonVal.obj r) =>
        !(r.version.elim false (fun v => v.strictEqStr CONSENT_VERSION))
    | _ => true
  (data, g.2, warned)

/-- One dispatched custom event: its name and the consent record carried
as the detail payload. -/
structure Signal where
  name : String
  payload : StoredRecord
deriving DecidableEq

/-- loadScripts: re-read the consent; when null, dispatch nothing; else
dispatch cookieConsent:analytics when the analytics field is truthy, then
cookieConsent:marketing when the marketing field is truthy, then always
cookieConsent:necessary, each carrying the full record. -/
def loadScripts (e : Env) (s : Store) : List Signal × Store :=
  let g := getConsent e s
  match g.1 with
  | none => ([], g.2)
  | some r =>
      ((if r.analytics.elim false JSVal.truthy
          then [⟨"cookieConsent:analytics", r⟩] else []) ++
       (if r.marketing.elim false JSVal.truthy
          then [⟨"cookieConsent:marketing", r⟩] else []) ++
       [⟨"cookieConsent:necessary", r⟩], g.2)

/-- Observable outcome of the handleSave handler: the final store, how
many saveConsent calls ran, whether the modal was hidden, whether
loadScripts ran, whether the failure console.error was logged, and the
signals dispatched. -/
structure HandleSaveResult where
  store : Store
  saveAttempts : Nat
  modalHidden : Bool
  scriptsLoaded : Bool
  errorLogged : Bool
  signals : List Signal
deriving DecidableEq

/-- handleSave: save the checkbox booleans, verify via hasConsent; on
success hide the modal and broadcast; on failure log the error and retry
the save once after a 100 ms delay (the delay itself is not modelled),
then verify again; when the retry also fails, nothing further happens:
the modal stays open and no exception reaches the host page. -/
def handleSave (e : Env) (ts1 ts2 : String) (a m : Bool) (s : Store) :
    HandleSaveResult :=
  let c : ConsentInput := ⟨some (JSVal.vBool a), some (JSVal.vBool m)⟩
  let p1 := saveConsent e ts1 c s
  let q1 := hasConsent e p1.2.1
  if q1.1 then
    let ls := loadScripts e q1.2
    ⟨ls.2, 1, true, true, false, ls.1⟩
  else
    let p2 := saveConsent e ts2 c q1.2
    let q2 := hasConsent e p2.2.1
    if q2.1 then
      let ls := loadScripts e q2.2
      ⟨ls.2, 2, true, true, true, ls.1⟩
    else
      ⟨q2.2, 2, false, false, true, []⟩

/-- reset of the public API: remove the record from both stores (the
banner re-display it also triggers is UI work outside this model). -/
def reset (e : Env) (s : Store) : Store :=
  CookieUtils.remove e s

/-- Claim C1 (code_bug evaluation): with no stored state at all the code
returns false for isCategoryAllowed on the category necessary, although
the specification and the repository documentation state that this
category is always allowed; the optional categories return false here, as
claimed. -/
theorem isCategoryAllowed_necessary_requires_consent :
    (isCategoryAllowed e0 emptyStore "necessary").1 = false
  ∧ (getConsent e0 emptyStore).1 = none
  ∧ (isCategoryAllowed e0 emptyStore "analytics").1 = false
  ∧ (isCategoryAllowed e0 emptyStore "marketing").1 = false := by decide

/-- Claim C2: in an environment where both physical writes succeed,
saveConsent with analytics true and marketing false followed immediately
by getConsent returns the constructed record, whose analytics field is
true, marketing false, necessary true and version CONSENT_VERSION. -/
theorem saveConsent_getConsent_roundtrip (e : Env) (ts : String) (s : Store)
    (hc : e.cookieWriteFails = false) (hl : e.localWriteFails = false) :
    (getConsent e (saveConsent e ts
        ⟨some (JSVal.vBool true), some (JSVal.vBool false)⟩ s).2.1).1
      = some { version := some (JSVal.vStr CONSENT_VERSION)
               timestamp := some (JSVal.vStr ts)
               necessary := some (JSVal.vBool true)
               analytics := some (JSVal.vBool true)
               marketing := some (JSVal.vBool false) } := by
  obtain ⟨cw, lw, cr, lr⟩ := e
  cases cw
  · cases lw
    · rfl
    · simp at hl
  · simp at hc

/-- Witness for the roundtrip claim at a concrete fault-free input. -/
theorem saveConsent_getConsent_roundtrip_witness :
    e0.cookieWriteFails = false ∧ e0.localWriteFails = false ∧
    (getConsent e0 (saveConsent e0 "2024-01-15T10:30:00.000Z"
        ⟨some (JSVal.vBool true), some (JSVal.vBool false)⟩ emptyStore).2.1).1
      = some { version := some (JSVal.vStr CONSENT_VERSION)
               timestamp := some (JSVal.vStr "2024-01-15T10:30:00.000Z")
               necessary := some (JSVal.vBool true)
               analytics := some (JSVal.vBool true)
               marketing := some (JSVal.vBool false) } :=
  ⟨rfl, rfl, saveConsent_getConsent_roundtrip e0 "2024-01-15T10:30:00.000Z"
    emptyStore rfl rfl⟩

/-- Record whose version field is present but the empty string: falsy in
JS, so the source accepts it, although it differs from CONSENT_VERSION. -/
def rFalsyVersion : StoredRecord :=
  { version := some (JSVal.vStr "")
    timestamp := some (JSVal.vStr "2024-01-15T10:30:00.000Z")
    necessary := some (JSVal.vBool true)
    analytics := some (JSVal.vBool false)
    marketing := some (JSVal.vBool false) }

/-- Record carrying an old truthy version tag. -/
def rOldVersion : StoredRecord :=
  { version := some (JSVal.vStr "0.9")
    timestamp := some (JSVal.vStr "2023-01-01T00:00:00.000Z")
    necessary := some (JSVal.vBool true)
    analytics := some (JSVal.vBool true)
    marketing := some (JSVal.vBool true) }

/-- Claim C3 counterexample: a stored record whose version field is
present and different from the configured version (here the empty string)
is invalid by the stated validity rule, yet getConsent returns it instead
of null, because the source also accepts every falsy version value. -/
theorem getConsent_accepts_falsy_version :
    rFalsyVersion.version ≠ none
  ∧ rFalsyVersion.version ≠ some (JSVal.vStr CONSENT_VERSION)
  ∧ (getConsent e0 ⟨Cell.stored (JsonVal.obj rFalsyVersion), Cell.empty⟩).1
      = some rFalsyVersion
  ∧ (hasConsent e0 ⟨Cell.stored (JsonVal.obj rFalsyVersion), Cell.empty⟩).1
      = true := by decide

/-- Claim C3 (amended): getConsent returns null and hasConsent false
whenever the adapter read yields nothing or a non-object, or yields an
object rejected by the validation; an object is accepted exactly when its
version is strictly the configured version or is absent or falsy, and the
three category fields are present; in particular every record carrying an
old truthy version string is rejected. -/
theorem getConsent_validation (e : Env) (s : Store) :
    ((CookieUtils.get e s).1 = none → (getConsent e s).1 = none)
  ∧ (∀ p, (CookieUtils.get e s).1 = some (JsonVal.prim p) →
        (getConsent e s).1 = none)
  ∧ (∀ r, (CookieUtils.get e s).1 = some (JsonVal.obj r) →
        (getConsent e s).1 = (if recordAccepted r then some r else none))
  ∧ ((getConsent e s).1 = none → (hasConsent e s).1 = false)
  ∧ (∀ r vs, r.version = some (JSVal.vStr vs) → vs ≠ CONSENT_VERSION →
        vs ≠ "" → recordAccepted r = false) := by
  refine ⟨?_, ?_, ?_, ?_, ?_⟩
  · intro h; simp [getConsent, h]
  · intro p h; simp [getConsent, h]
  · intro r h; simp [getConsent, h]
  · intro h; simp [hasConsent, h]
  · intro r vs hv hne hnempty
    have hne2 : vs ≠ "1.0" := hne
    simp [recordAccepted, versionAccepted, hv, JSVal.strictEqStr,
      JSVal.truthy, CONSENT_VERSION, beq_iff_eq, bne_iff_ne, hne2, hnempty]

/-- Witness for the validation theorem: the acceptance clause and the
old-version rejection clause applied to rOldVersion in the cookie cell. -/
theorem getConsent_validation_witness :
    (CookieUtils.get e0 ⟨Cell.stored (JsonVal.obj rOldVersion), Cell.empty⟩).1
      = some (JsonVal.obj rOldVersion)
  ∧ (getConsent e0 ⟨Cell.stored (JsonVal.obj rOldVersion), Cell.empty⟩).1
      = (if recordAccepted rOldVersion then some rOldVersion else none)
  ∧ recordAccepted rOldVersion = false :=
  ⟨rfl,
   (getConsent_validation e0
      ⟨Cell.stored (JsonVal.obj rOldVersion), Cell.empty⟩).2.2.1
     rOldVersion rfl,
   (getConsent_validation e0
      ⟨Cell.stored (JsonVal.obj rOldVersion), Cell.empty⟩).2.2.2.2
     rOldVersion "0.9" rfl (by decide) (by decide)⟩

/-- Environment in which both physical writes fail. -/
def eFail : Env := ⟨true, true, false, false⟩

/-- Claim C4: handleSave returns the constructed record to its caller in
every environment, runs at most two saveConsent attempts, runs exactly one
when the first verification succeeds, retries exactly once when the first
verification fails (logging the error), and when the retry also fails it
hides nothing, loads nothing and dispatches nothing: the failure is only
logged and the modal stays open. -/
theorem handleSave_retries_once (e : Env) (ts1 ts2 : String) (a m : Bool)
    (s : Store) :
    (saveConsent e ts1 ⟨some (JSVal.vBool a), some (JSVal.vBool m)⟩ s).1
      = mkConsentData ts1 ⟨some (JSVal.vBool a), some (JSVal.vBool m)⟩
  ∧ (handleSave e ts1 ts2 a m s).saveAttempts ≤ 2
  ∧ ((hasConsent e (saveConsent e ts1
        ⟨some (JSVal.vBool a), some (JSVal.vBool m)⟩ s).2.1).1 = true →
      (handleSave e ts1 ts2 a m s).saveAttempts = 1
      ∧ (handleSave e ts1 ts2 a m s).modalHidden = true
      ∧ (handleSave e ts1 ts2 a m s).errorLogged = false)
  ∧ ((hasConsent e (saveConsent e ts1
        ⟨some (JSVal.vBool a), some (JSVal.vBool m)⟩ s).2.1).1 = false →
      (handleSave e ts1 ts2 a m s).saveAttempts = 2
      ∧ (handleSave e ts1 ts2 a m s).errorLogged = true)
  ∧ ((hasConsent e (saveConsent e ts1
        ⟨some (JSVal.vBool a), some (JSVal.vBool m)⟩ s).2.1).1 = false →
     (hasConsent e (saveConsent e ts2
        ⟨some (JSVal.vBool a), some (JSVal.vBool m)⟩
        (hasConsent e (saveConsent e ts1
          ⟨some (JSVal.vBool a), some (JSVal.vBool m)⟩ s).2.1).2).2.1).1
        = false →
      (handleSave e ts1 ts2 a m s).modalHidden = false
      ∧ (handleSave e ts1 ts2 a m s).scriptsLoaded = false
      ∧ (handleSave e ts1 ts2 a m s).signals = []) := by
  by_cases h1 : (hasConsent e (saveConsent e ts1
      ⟨some (JSVal.vBool a), some (JSVal.vBool m)⟩ s).2.1).1 = true
  · refine ⟨rfl, ?_, ?_, ?_, ?_⟩ <;> simp [handleSave, h1]
  · have h1f : (hasConsent e (saveConsent e ts1
        ⟨some (JSVal.vBool a), some (JSVal.vBool m)⟩ s).2.1).1 = false := by
      simpa using h1
    by_cases h2 : (hasConsent e (saveConsent e ts2
        ⟨some (JSVal.vBool a), some (JSVal.vBool m)⟩
        (hasConsent e (saveConsent e ts1
          ⟨some (JSVal.vBool a), some (JSVal.vBool m)⟩ s).2.1).2).2.1).1 = true
    · refine ⟨rfl, ?_, ?_, ?_, ?_⟩ <;> simp [handleSave, h1f, h2]
    · have h2f : (hasConsent e (saveConsent e ts2
          ⟨some (JSVal.vBool a), some (JSVal.vBool m)⟩
          (hasConsent e (saveConsent e ts1
            ⟨some (JSVal.vBool a), some (JSVal.vBool m)⟩ s).2.1).2).2.1).1
          = false := by
        simpa using h2
      refine ⟨rfl, ?_, ?_, ?_, ?_⟩ <;> simp [handleSave, h1f, h2f]

/-- Witness for the handleSave theorem: with both physical writes failing
on an empty store, the first verification fails, the retry fails, and the
modal stays open with nothing dispatched. -/
theorem handleSave_retries_once_witness :
    (hasConsent eFail (saveConsent eFail "t1"
        ⟨some (JSVal.vBool true), some (JSVal.vBool true)⟩
        emptyStore).2.1).1 = false
  ∧ (handleSave eFail "t1" "t2" true true emptyStore).modalHidden = false
  ∧ (handleSave eFail "t1" "t2" true true emptyStore).scriptsLoaded = false
  ∧ (handleSave eFail "t1" "t2" true true emptyStore).signals = [] :=
  ⟨by decide,
   ((handleSave_retries_once eFail "t1" "t2" true true emptyStore).2.2.2.2
      (by decide) (by decide)).1,
   ((handleSave_retries_once eFail "t1" "t2" true true emptyStore).2.2.2.2
      (by decide) (by decide)).2.1,
   ((handleSave_retries_once eFail "t1" "t2" true true emptyStore).2.2.2.2
      (by decide) (by decide)).2.2⟩

/-- Environment where only the primary cookie write fails. -/
def eCookieFail : Env := ⟨true, false, false, false⟩

/-- Record representing an older but accepted stored consent. -/
def rStale : StoredRecord :=
  { version := some (JSVal.vStr "1.0")
    timestamp := some (JSVal.vStr "2023-06-01T00:00:00.000Z")
    necessary := some (JSVal.vBool true)
    analytics := some (JSVal.vBool true)
    marketing := some (JSVal.vBool true) }

/-- Claim C5 counterexample: with the primary write failing and the
secondary succeeding, a parseable stale record left in the cookie makes
the subsequent getConsent return that stale record instead of the record
just saved, because the adapter reads the primary store first. -/
theorem adapter_stale_primary_counterexample :
    eCookieFail.cookieWriteFails = true
  ∧ eCookieFail.localWriteFails = false
  ∧ (getConsent eCookieFail (saveConsent eCookieFail "t2"
        ⟨some (JSVal.vBool false), some (JSVal.vBool false)⟩
        ⟨Cell.stored (JsonVal.obj rStale), Cell.empty⟩).2.1).1 = some rStale
  ∧ rStale ≠ mkConsentData "t2"
        ⟨some (JSVal.vBool false), some (JSVal.vBool false)⟩ := by decide

/-- Claim C5 (amended): every adapter write is attempted on both stores
independently and a failing write only leaves that store unchanged; and
when the primary write fails, the secondary write succeeds and the primary
store holds no parseable entry, the record just saved is recovered from
the fallback store by the following read, so getConsent returns it. -/
theorem adapter_fallback_recovery (e : Env) (ts : String) (c : ConsentInput)
    (co lo : Cell)
    (hcw : e.cookieWriteFails = true) (hlw : e.localWriteFails = false)
    (hco : co.parse = none) :
    (∀ e2 : Env, ∀ v : JsonVal, ∀ s2 : Store,
        CookieUtils.set e2 v s2 =
          ⟨if e2.cookieWriteFails then s2.cookie else Cell.stored v,
           if e2.localWriteFails then s2.localStore else Cell.stored v⟩)
  ∧ (saveConsent e ts c ⟨co, lo⟩).2.1.localStore
      = Cell.stored (JsonVal.obj (mkConsentData ts c))
  ∧ (getConsent e (saveConsent e ts c ⟨co, lo⟩).2.1).1
      = some (mkConsentData ts c) := by
  have hset : ∀ e2 : Env, ∀ v : JsonVal, ∀ s2 : Store,
      CookieUtils.set e2 v s2 =
        ⟨if e2.cookieWriteFails then s2.cookie else Cell.stored v,
         if e2.localWriteFails then s2.localStore else Cell.stored v⟩ := by
    intro e2 v s2
    obtain ⟨cw2, lw2, crm2, lrm2⟩ := e2
    obtain ⟨cc2, ll2⟩ := s2
    cases cw2 <;> cases lw2 <;> rfl
  obtain ⟨cw, lw, crm, lrm⟩ := e
  cases cw
  · simp at hcw
  · cases lw
    · cases co
      · exact ⟨hset, rfl, rfl⟩
      · exact ⟨hset, rfl, rfl⟩
      · simp [Cell.parse] at hco
    · simp at hlw

/-- Witness for the fallback recovery theorem at the empty cookie cell. -/
theorem adapter_fallback_recovery_witness :
    eCookieFail.cookieWriteFails = true ∧ eCookieFail.localWriteFails = false
  ∧ Cell.empty.parse = none
  ∧ (getConsent eCookieFail (saveConsent eCookieFail "t"
        ⟨some (JSVal.vBool true), some (JSVal.vBool false)⟩
        ⟨Cell.empty, Cell.empty⟩).2.1).1
      = some (mkConsentData "t"
          ⟨some (JSVal.vBool true), some (JSVal.vBool false)⟩) :=
  ⟨rfl, rfl, rfl,
   (adapter_fallback_recovery eCookieFail "t"
      ⟨some (JSVal.vBool true), some (JSVal.vBool false)⟩
      Cell.empty Cell.empty rfl rfl rfl).2.2⟩

/-- Claim C6: the adapter read checks the primary cookie cell first and on
a successful parse returns that value, mirroring it into the fallback
store when the fallback write succeeds and leaving the fallback untouched
when that write throws; when the primary cell is absent or malformed the
read falls back to the secondary cell, whose malformed content also reads
as absence, and the store is left unchanged; the function is total, so the
read yields a parsed value or nothing and never raises. -/
theorem CookieUtils_get_contract (e : Env) (co lo : Cell) :
    (∀ v, co = Cell.stored v → (CookieUtils.get e ⟨co, lo⟩).1 = some v)
  ∧ (∀ v, co = Cell.stored v → e.localWriteFails = false →
        (CookieUtils.get e ⟨co, lo⟩).2 = ⟨co, Cell.stored v⟩)
  ∧ (∀ v, co = Cell.stored v → e.localWriteFails = true →
        (CookieUtils.get e ⟨co, lo⟩).2 = ⟨co, lo⟩)
  ∧ (co.parse = none →
        (CookieUtils.get e ⟨co, lo⟩).1 = lo.parse
      ∧ (CookieUtils.get e ⟨co, lo⟩).2 = ⟨co, lo⟩) := by
  obtain ⟨cw, lw, crm, lrm⟩ := e
  refine ⟨?_, ?_, ?_, ?_⟩
  · intro v hv; subst hv; cases lw <;> rfl
  · intro v hv hlw; subst hv
    cases lw
    · rfl
    · simp at hlw
  · intro v hv hlw; subst hv
    cases lw
    · simp at hlw
    · rfl
  · intro hco
    cases co
    · cases lo <;> exact ⟨rfl, rfl⟩
    · cases lo <;> exact ⟨rfl, rfl⟩
    · simp [Cell.parse] at hco

/-- Witness for the adapter read contract: a record in the cookie cell is
returned and mirrored into the empty fallback cell. -/
theorem CookieUtils_get_contract_witness :
    e0.localWriteFails = false
  ∧ (CookieUtils.get e0 ⟨Cell.stored (JsonVal.obj rStale), Cell.empty⟩).1
      = some (JsonVal.obj rStale)
  ∧ (CookieUtils.get e0 ⟨Cell.stored (JsonVal.obj rStale), Cell.empty⟩).2
      = ⟨Cell.stored (JsonVal.obj rStale), Cell.stored (JsonVal.obj rStale)⟩ :=
  ⟨rfl,
   (CookieUtils_get_contract e0 (Cell.stored (JsonVal.obj rStale))
      Cell.empty).1 (JsonVal.obj rStale) rfl,
   (CookieUtils_get_contract e0 (Cell.stored (JsonVal.obj rStale))
      Cell.empty).2.1 (JsonVal.obj rStale) rfl rfl⟩

/-- Accepted record whose analytics field is the truthy number 1, not the
boolean true. -/
def rTruthy : StoredRecord :=
  { version := some (JSVal.vStr "1.0")
    timestamp := some (JSVal.vStr "2024-01-15T10:30:00.000Z")
    necessary := some (JSVal.vBool true)
    analytics := some (JSVal.vNum 1)
    marketing := some (JSVal.vBool false) }

/-- Claim C7 counterexample: for the valid record rTruthy, whose stored
analytics value is not the boolean true, the broadcaster nevertheless
emits the cookieConsent:analytics signal, because the source gates each
optional signal on truthiness rather than on strict equality with true. -/
theorem loadScripts_fires_on_nonboolean :
    (getConsent e0 ⟨Cell.stored (JsonVal.obj rTruthy), Cell.empty⟩).1
      = some rTruthy
  ∧ rTruthy.analytics ≠ some (JSVal.vBool true)
  ∧ (loadScripts e0 ⟨Cell.stored (JsonVal.obj rTruthy), Cell.empty⟩).1
      = [⟨"cookieConsent:analytics", rTruthy⟩,
         ⟨"cookieConsent:necessary", rTruthy⟩] := by decide

/-- Claim C7 (amended): for every record the validation returns, the
broadcast contains exactly one cookieConsent:analytics signal when the
stored analytics value is truthy and none otherwise, likewise for
marketing, always exactly one cookieConsent:necessary signal, and every
dispatched signal carries the full record as payload. -/
theorem loadScripts_broadcast_truthy (e : Env) (s : Store) (r : StoredRecord)
    (h : (getConsent e s).1 = some r) :
    ((loadScripts e s).1.filter
        (fun sg => sg.name == "cookieConsent:analytics")
        = if r.analytics.elim false JSVal.truthy
            then [⟨"cookieConsent:analytics", r⟩] else [])
  ∧ ((loadScripts e s).1.filter
        (fun sg => sg.name == "cookieConsent:marketing")
        = if r.marketing.elim false JSVal.truthy
            then [⟨"cookieConsent:marketing", r⟩] else [])
  ∧ ((loadScripts e s).1.filter
        (fun sg => sg.name == "cookieConsent:necessary")
        = [⟨"cookieConsent:necessary", r⟩])
  ∧ (∀ sg ∈ (loadScripts e s).1, sg.payload = r) := by
  by_cases ha : r.analytics.elim false JSVal.truthy = true <;>
  by_cases hm : r.marketing.elim false JSVal.truthy = true <;>
  · refine ⟨?_, ?_, ?_, ?_⟩ <;>
      simp [loadScripts, h, ha, hm, List.filter]

/-- Witness for the truthy broadcast theorem at the all-granted record. -/
theorem loadScripts_broadcast_truthy_witness :
    (getConsent e0 ⟨Cell.stored (JsonVal.obj rStale), Cell.empty⟩).1
      = some rStale
  ∧ (loadScripts e0 ⟨Cell.stored (JsonVal.obj rStale), Cell.empty⟩).1.filter
        (fun sg => sg.name == "cookieConsent:analytics")
      = (if rStale.analytics.elim false JSVal.truthy
          then [⟨"cookieConsent:analytics", rStale⟩] else []) :=
  ⟨rfl,
   (loadScripts_broadcast_truthy e0
      ⟨Cell.stored (JsonVal.obj rStale), Cell.empty⟩ rStale rfl).1⟩

/-- Claim C8: when removal succeeds on both stores, reset empties them, a
second reset is a no-op on the already empty result, getConsent is null
and hasConsent false after each call, and erasing with nothing stored is
not an error: reset on the empty store returns the empty store. -/
theorem reset_idempotent (e : Env) (s : Store)
    (h1 : e.cookieRemoveFails = false) (h2 : e.localRemoveFails = false) :
    reset e s = emptyStore
  ∧ reset e (reset e s) = reset e s
  ∧ (getConsent e (reset e s)).1 = none
  ∧ (hasConsent e (reset e s)).1 = false
  ∧ (getConsent e (reset e (reset e s))).1 = none
  ∧ (hasConsent e (reset e (reset e s))).1 = false
  ∧ reset e emptyStore = emptyStore := by
  obtain ⟨cw, lw, crm, lrm⟩ := e
  cases crm
  · cases lrm
    · exact ⟨rfl, rfl, rfl, rfl, rfl, rfl, rfl⟩
    · simp at h2
  · simp at h1

/-- Witness for the reset theorem, erasing a stored record. -/
theorem reset_idempotent_witness :
    e0.cookieRemoveFails = false ∧ e0.localRemoveFails = false
  ∧ reset e0 ⟨Cell.stored (JsonVal.obj rStale), Cell.empty⟩ = emptyStore
  ∧ (getConsent e0
       (reset e0 ⟨Cell.stored (JsonVal.obj rStale), Cell.empty⟩)).1 = none :=
  ⟨rfl, rfl,
   (reset_idempotent e0 ⟨Cell.stored (JsonVal.obj rStale), Cell.empty⟩
      rfl rfl).1,
   (reset_idempotent e0 ⟨Cell.stored (JsonVal.obj rStale), Cell.empty⟩
      rfl rfl).2.2.1⟩

/-- Accepted record recording a reject-all decision. -/
def rRejectAll : StoredRecord :=
  { version := some (JSVal.vStr "1.0")
    timestamp := some (JSVal.vStr "2024-01-15T10:30:00.000Z")
    necessary := some (JSVal.vBool true)
    analytics := some (JSVal.vBool false)
    marketing := some (JSVal.vBool false) }

/-- Claim C9 counterexample: for a valid reject-all record no optional
signal fires and the necessary signal is the only dispatched signal, hence
the first one, contradicting the clause that it is never first. -/
theorem loadScripts_necessary_sole_signal :
    (getConsent e0 ⟨Cell.stored (JsonVal.obj rRejectAll), Cell.empty⟩).1
      = some rRejectAll
  ∧ (loadScripts e0 ⟨Cell.stored (JsonVal.obj rRejectAll), Cell.empty⟩).1
      = [⟨"cookieConsent:necessary", rRejectAll⟩]
  ∧ (loadScripts e0
        ⟨Cell.stored (JsonVal.obj rRejectAll), Cell.empty⟩).1.head?
      = some ⟨"cookieConsent:necessary", rRejectAll⟩ := by decide

/-- Claim C9 (amended): the broadcast list is always the analytics signal
when fired, then the marketing signal when fired, then the necessary
signal; the necessary signal is therefore always the last dispatched
signal, and when no optional signal fires it is the sole, hence also the
first, signal. -/
theorem loadScripts_necessary_last (e : Env) (s : Store) (r : StoredRecord)
    (h : (getConsent e s).1 = some r) :
    ((loadScripts e s).1 =
      (if r.analytics.elim false JSVal.truthy
        then [⟨"cookieConsent:analytics", r⟩] else []) ++
      (if r.marketing.elim false JSVal.truthy
        then [⟨"cookieConsent:marketing", r⟩] else []) ++
      [⟨"cookieConsent:necessary", r⟩])
  ∧ (loadScripts e s).1.getLast? = some ⟨"cookieConsent:necessary", r⟩ := by
  by_cases ha : r.analytics.elim false JSVal.truthy = true <;>
  by_cases hm : r.marketing.elim false JSVal.truthy = true <;>
  · refine ⟨?_, ?_⟩ <;>
      simp [loadScripts, h, ha, hm, List.getLast?]

/-- Witness for the broadcast order theorem at the all-granted record. -/
theorem loadScripts_necessary_last_witness :
    (getConsent e0 ⟨Cell.stored (JsonVal.obj rStale), Cell.empty⟩).1
      = some rStale
  ∧ (loadScripts e0
        ⟨Cell.stored (JsonVal.obj rStale), Cell.empty⟩).1.getLast?
      = some ⟨"cookieConsent:necessary", rStale⟩ :=
  ⟨rfl,
   (loadScripts_necessary_last e0
      ⟨Cell.stored (JsonVal.obj rStale), Cell.empty⟩ rStale rfl).2⟩

/-- Claim C10: saving a consent whose analytics property is the truthy
number 1 stores that value uncoerced; afterwards the broadcaster fires the
cookieConsent:analytics signal, yet isCategoryAllowed on analytics is
false, because the broadcaster tests truthiness while isCategoryAllowed
tests strict equality with the boolean true. -/
theorem save_broadcast_isAllowed_mismatch :
    ((saveConsent e0 "t" ⟨some (JSVal.vNum 1), some (JSVal.vBool false)⟩
        emptyStore).1.analytics = some (JSVal.vNum 1))
  ∧ (Signal.mk "cookieConsent:analytics"
        (saveConsent e0 "t" ⟨some (JSVal.vNum 1), some (JSVal.vBool false)⟩
          emptyStore).1
      ∈ (loadScripts e0 (saveConsent e0 "t"
          ⟨some (JSVal.vNum 1), some (JSVal.vBool false)⟩ emptyStore).2.1).1)
  ∧ ((isCategoryAllowed e0 (saveConsent e0 "t"
        ⟨some (JSVal.vNum 1), some (JSVal.vBool false)⟩ emptyStore).2.1
        "analytics").1 = false) := by decide

end CookieConsent
